import Mathlib

/-!
Shallow embedding of `IMDB_scraper/IMDB_scraper/spiders/imdb_spider.py`.

The repository is a Scrapy spider with three callback stages:
`parse` (title page), `parse_full_credits` (cast-list page) and
`parse_actor_page` (actor profile page).  We model HTML documents as
rose trees, the CSS selectors actually used by the spider as descendant
chains of (tag, class) steps, `Response.urljoin` as relative URL
resolution, and each callback as a function from a response to the list
of values it yields.  Python exceptions (`KeyError` from `attrib["href"]`,
`IndexError` from indexing `[0]` into an empty selector list) become
`Except` errors.
-/

/-- Does the second list start with the first list? -/
def listStartsWith : List Char → List Char → Bool
  | [], _ => true
  | _ :: _, [] => false
  | p :: ps, c :: cs => p == c && listStartsWith ps cs

/-- Split a character list on a separator character.  Mirrors Python
`str.split(sep)`: always returns at least one (possibly empty) field. -/
def splitOnChar (sep : Char) : List Char → List (List Char)
  | [] => [[]]
  | c :: cs =>
    if c == sep then [] :: splitOnChar sep cs
    else
      match splitOnChar sep cs with
      | [] => [[c]]
      | s :: ss => (c :: s) :: ss

/-- Rejoin fields with a `/` separator. -/
def joinSlash : List (List Char) → List Char
  | [] => []
  | [s] => s
  | s :: ss => s ++ '/' :: joinSlash ss

/-- Split a URL character list at the first occurrence of `://`,
returning the scheme part and the remainder. -/
def splitScheme : List Char → Option (List Char × List Char)
  | [] => none
  | c :: cs =>
    if listStartsWith (String.toList "://") (c :: cs) then
      some ([], (c :: cs).drop 3)
    else
      match splitScheme cs with
      | none => none
      | some (s, rest) => some (c :: s, rest)

/-- Relative URL resolution as performed by `response.urljoin` (Python
`urllib.parse.urljoin`), restricted to the shapes the spider produces:
an absolute `http(s)` link is kept as is, a root-relative link replaces
the base path, and any other link replaces the last path segment of the
base. -/
def urljoin (base rel : String) : String :=
  let r := rel.toList
  if listStartsWith (String.toList "http://") r ||
     listStartsWith (String.toList "https://") r then rel
  else
    match splitScheme base.toList with
    | none => rel
    | some (scheme, rest) =>
      match splitOnChar '/' rest with
      | [] => rel
      | host :: pathSegs =>
        if listStartsWith ['/'] r then
          String.mk (scheme ++ String.toList "://" ++ host ++ r)
        else
          String.mk (scheme ++ String.toList "://" ++ host ++
            '/' :: joinSlash (pathSegs.dropLast ++ [r]))

mutual
/-- An HTML node: an element with a tag name, attribute list and child
nodes, or a text node. -/
inductive HtmlNode : Type where
  | elem (tag : String) (attrs : List (String × String)) (children : NodeList)
  | text (s : String)

/-- Children of an element, as a mutually inductive list so that
document traversals are structurally recursive. -/
inductive NodeList : Type where
  | nil
  | cons (head : HtmlNode) (tail : NodeList)
end

/-- Convert a `NodeList` to an ordinary list. -/
def NodeList.toList : NodeList → List HtmlNode
  | .nil => []
  | .cons c cs => c :: NodeList.toList cs

/-- Attribute lookup on an attribute list (first match wins), as in
`Selector.attrib`. -/
def lookupAttr : List (String × String) → String → Option String
  | [], _ => none
  | (k, v) :: rest, key => if k == key then some v else lookupAttr rest key

/-- Attribute lookup on a node; text nodes have no attributes. -/
def HtmlNode.getAttr : HtmlNode → String → Option String
  | .elem _ attrs _, key => lookupAttr attrs key
  | .text _, _ => none

/-- The class tokens of a node: the `class` attribute split on spaces. -/
def HtmlNode.classTokens (n : HtmlNode) : List String :=
  match n.getAttr "class" with
  | none => []
  | some c => (splitOnChar ' ' c.toList).map String.mk

/-- The direct text children of a node, in order; this is what the CSS
pseudo-element `::text` selects. -/
def HtmlNode.textChildren : HtmlNode → List String
  | .elem _ _ cs => cs.toList.filterMap (fun c =>
      match c with
      | .text s => some s
      | .elem _ _ _ => none)
  | .text _ => []

/-- One compound step of a CSS selector: an optional tag-name condition
and an optional class condition, e.g. `td.primary_photo` or `a`. -/
structure CssStep : Type where
  tag : Option String
  cls : Option String

/-- Does a node satisfy one selector step?  Text nodes never do. -/
def matchesStep (st : CssStep) (n : HtmlNode) : Bool :=
  match n with
  | .text _ => false
  | .elem t _ _ =>
    (match st.tag with
     | none => true
     | some tg => t == tg) &&
    (match st.cls with
     | none => true
     | some c => n.classTokens.contains c)

mutual
/-- Preorder traversal pairing every node of the tree with its list of
strict ancestors (outermost first). -/
def preTrail (n : HtmlNode) (anc : List HtmlNode) :
    List (HtmlNode × List HtmlNode) :=
  match n with
  | .text s => [(.text s, anc)]
  | .elem t a cs => (.elem t a cs, anc) :: preTrailList cs (anc ++ [.elem t a cs])

/-- Preorder traversal of a node list with a common ancestor trail. -/
def preTrailList (l : NodeList) (anc : List HtmlNode) :
    List (HtmlNode × List HtmlNode) :=
  match l with
  | .nil => []
  | .cons c cs => preTrail c anc ++ preTrailList cs anc
end

/-- Do the outer steps of a descendant-combinator selector match, in
order, some subsequence of an ancestor trail (outermost ancestor
first)? -/
def ancSatisfies : List CssStep → List HtmlNode → Bool
  | [], _ => true
  | _ :: _, [] => false
  | st :: sts, a :: rest =>
    (matchesStep st a && ancSatisfies sts rest) || ancSatisfies (st :: sts) rest

/-- Evaluate a descendant-combinator CSS selector (outer steps, then a
final step) against a root node, returning matched nodes in document
order, as parsel's `Selector.css` does (`descendant-or-self` semantics:
the root itself may match the first step). -/
def cssSelect (outer : List CssStep) (final : CssStep) (root : HtmlNode) :
    List HtmlNode :=
  ((preTrail root []).filter
    (fun p => matchesStep final p.1 && ancSatisfies outer p.2)).map Prod.fst

/-- The selector step `td.primary_photo`. -/
def tdPrimaryPhotoStep : CssStep := ⟨some "td", some "primary_photo"⟩

/-- The selector step `a`. -/
def anchorStep : CssStep := ⟨some "a", none⟩

/-- The selector step `.itemprop`. -/
def itempropStep : CssStep := ⟨none, some "itemprop"⟩

/-- The selector step `div.filmo-category-section`. -/
def filmoSectionStep : CssStep := ⟨some "div", some "filmo-category-section"⟩

/-- The selector step `div.filmo-row`. -/
def filmoRowStep : CssStep := ⟨some "div", some "filmo-row"⟩

/-- The selector step `b`. -/
def boldStep : CssStep := ⟨some "b", none⟩

/-- The callbacks of the spider, used to tag scheduled requests. -/
inductive Callback : Type where
  | parse
  | parse_full_credits
  | parse_actor_page
deriving DecidableEq

/-- One value yielded by a spider callback: either a `scrapy.Request`
with its callback, or an output item (a CreditRecord dictionary
`{"actor": ..., "movie_or_TV_name": ...}`; the actor field is `none`
when `.get()` returned Python `None`). -/
inductive ScrapyOutput : Type where
  | request (url : String) (callback : Callback)
  | item (actor : Option String) (movie_or_TV_name : String)
deriving DecidableEq

/-- The Python exceptions the spider can raise. -/
inductive PyError : Type where
  | keyError (key : String)
  | indexError
deriving DecidableEq

/-- An already-downloaded HTTP response: its URL and parsed body. -/
structure Response : Type where
  url : String
  body : HtmlNode

namespace ImdbSpider

/-- The seed URL list of the spider. -/
def start_urls : List String := ["https://www.imdb.com/title/tt1844624/"]

/-- `ImdbSpider.parse`: from a title page, schedule the full-credits
page, handled by `parse_full_credits`. -/
def parse (response : Response) : List ScrapyOutput :=
  let cast_page := urljoin response.url "fullcredits"
  [ScrapyOutput.request cast_page Callback.parse_full_credits]

/-- The nodes matched by `response.css("td.primary_photo a")`. -/
def castAnchors (response : Response) : List HtmlNode :=
  cssSelect [tdPrimaryPhotoStep] anchorStep response.body

/-- The list comprehension `[a.attrib["href"] for a in ...]`: collect
each anchor's `href`, raising `KeyError` at the first anchor without
one. -/
def collectHrefs : List HtmlNode → Except PyError (List String)
  | [] => .ok []
  | a :: rest =>
    match a.getAttr "href" with
    | none => .error (PyError.keyError "href")
    | some h =>
      match collectHrefs rest with
      | .error e => .error e
      | .ok hs => .ok (h :: hs)

/-- `ImdbSpider.parse_full_credits`: from a cast-list page, schedule one
request per cast anchor's `href`, resolved against the page URL and
handled by `parse_actor_page`. -/
def parse_full_credits (response : Response) :
    Except PyError (List ScrapyOutput) :=
  match collectHrefs (castAnchors response) with
  | .error e => .error e
  | .ok cast_links =>
    .ok (cast_links.map (fun link =>
      ScrapyOutput.request (urljoin response.url link) Callback.parse_actor_page))

/-- The strings selected by `response.css(".itemprop::text")`. -/
def itempropTexts (response : Response) : List String :=
  (cssSelect [] itempropStep response.body).flatMap HtmlNode.textChildren

/-- `response.css(".itemprop::text").get()`: the first such string, or
`none` (Python `None`) when there is none. -/
def actor_name (response : Response) : Option String :=
  (itempropTexts response).head?

/-- The nodes matched by `response.css("div.filmo-category-section")`. -/
def filmoSections (response : Response) : List HtmlNode :=
  cssSelect [] filmoSectionStep response.body

/-- The strings selected by `acted_in.css("div.filmo-row b a::text")`
relative to one credit-category section node. -/
def sectionTitles (acted_in : HtmlNode) : List String :=
  (cssSelect [filmoRowStep, boldStep] anchorStep acted_in).flatMap
    HtmlNode.textChildren

/-- `ImdbSpider.parse_actor_page`: extract the actor name, index the
first credit-category section (raising `IndexError` when there is
none), and yield one item per bolded title link in that section. -/
def parse_actor_page (response : Response) :
    Except PyError (List ScrapyOutput) :=
  let name := actor_name response
  match filmoSections response with
  | [] => .error PyError.indexError
  | acted_in :: _ =>
    .ok ((sectionTitles acted_in).map (fun movie =>
      ScrapyOutput.item name movie))

end ImdbSpider

/-- Modelled from the spec: the external fetch/dispatch engine (Scrapy,
out of scope of the repository) invokes the callback a request was
tagged with on the fetched response.  `parse` cannot raise, so its
result is wrapped in `.ok`. -/
def dispatch : Callback → Response → Except PyError (List ScrapyOutput)
  | .parse, r => .ok (ImdbSpider.parse r)
  | .parse_full_credits, r => ImdbSpider.parse_full_credits r
  | .parse_actor_page, r => ImdbSpider.parse_actor_page r

/-- The follow-up requests among the outputs of one callback call. -/
def requestsOf (outs : List ScrapyOutput) : List (String × Callback) :=
  outs.filterMap (fun o =>
    match o with
    | .request u c => some (u, c)
    | .item _ _ => none)

/-- The output items among the outputs of one callback call. -/
def itemsOf (outs : List ScrapyOutput) : List ScrapyOutput :=
  outs.filter (fun o =>
    match o with
    | .request _ _ => false
    | .item _ _ => true)

/-- Modelled from the spec: the external engine's request loop over
already-downloaded fixture documents.  `fetch` maps a URL to its
document (`none`: nothing fetched), the queue holds pending
(URL, callback) requests, and `fuel` bounds the number of steps.  A
per-page callback error is caught and the crawl continues with the rest
of the queue, as the spec's propagation policy requires. -/
def runPipeline (fetch : String → Option Response) :
    Nat → List (String × Callback) → List ScrapyOutput
  | 0, _ => []
  | _ + 1, [] => []
  | fuel + 1, (u, cb) :: queue =>
    match fetch u with
    | none => runPipeline fetch fuel queue
    | some r =>
      match dispatch cb r with
      | .error _ => runPipeline fetch fuel queue
      | .ok outs => itemsOf outs ++ runPipeline fetch fuel (queue ++ requestsOf outs)

/-- Convert an ordinary list of nodes to a `NodeList`. -/
def NodeList.ofList : List HtmlNode → NodeList
  | [] => .nil
  | c :: cs => .cons c (NodeList.ofList cs)

/-- Fixture scaffolding: one filmography row with a bolded title link. -/
def titleRow (href title : String) : HtmlNode :=
  .elem "div" [("class", "filmo-row")] (NodeList.ofList
    [.elem "b" [] (NodeList.ofList
      [.elem "a" [("href", href)] (NodeList.ofList [.text title])])])

/-- Fixture scaffolding: one credit-category section. -/
def creditSection (rows : List HtmlNode) : HtmlNode :=
  .elem "div" [("class", "filmo-category-section")] (NodeList.ofList rows)

/-- Fixture scaffolding: the name marker node of a profile page. -/
def nameSpan (nm : String) : HtmlNode :=
  .elem "span" [("class", "itemprop")] (NodeList.ofList [.text nm])

/-- Fixture scaffolding: a section heading (carries no selector class,
so the spider never selects by it). -/
def heading (t : String) : HtmlNode :=
  .elem "h4" [] (NodeList.ofList [.text t])

/-- Fixture scaffolding: one cast-list cell whose anchor has an `href`. -/
def castCell (href : String) : HtmlNode :=
  .elem "td" [("class", "primary_photo")] (NodeList.ofList
    [.elem "a" [("href", href)] NodeList.nil])

/-- Fixture: a profile page whose first credit-category section is the
"Director" one and whose second is the "Actor" one. -/
def dirFirstPage : Response :=
  ⟨"https://www.imdb.com/name/nm0001/",
   .elem "html" [] (NodeList.ofList
     [nameSpan "John Smith",
      heading "Director",
      creditSection [titleRow "/title/d1/" "Directed Film"],
      heading "Actor",
      creditSection [titleRow "/title/a1/" "Acted Film"]])⟩

/-- Fixture: a profile page with name "Jane Doe" and one acting section
holding titles "Film A" then "Film B". -/
def janeDoePage : Response :=
  ⟨"https://www.imdb.com/name/nm0002/",
   .elem "html" [] (NodeList.ofList
     [nameSpan "Jane Doe",
      heading "Actress",
      creditSection [titleRow "/title/fa/" "Film A",
                     titleRow "/title/fb/" "Film B"]])⟩

/-- Fixture: a profile page with no node carrying the `itemprop` class
but with one credit section. -/
def noNamePage : Response :=
  ⟨"https://www.imdb.com/name/nm0003/",
   .elem "html" [] (NodeList.ofList
     [heading "Actor",
      creditSection [titleRow "/title/sf/" "Some Film"]])⟩

/-- Fixture: a profile page with a name marker but zero credit-category
sections. -/
def noSectionsPage : Response :=
  ⟨"https://www.imdb.com/name/nm0004/",
   .elem "html" [] (NodeList.ofList
     [nameSpan "No Credits Person"])⟩

/-- Fixture: a profile page whose single section lists the same title
twice (duplicate rows are preserved, no deduplication). -/
def dupTitlesPage : Response :=
  ⟨"https://www.imdb.com/name/nm0005/",
   .elem "html" [] (NodeList.ofList
     [nameSpan "Rerun Person",
      creditSection [titleRow "/title/r1/" "Rerun",
                     titleRow "/title/r1/" "Rerun"]])⟩

/-- Fixture: a cast-list page with two `td.primary_photo a` anchors. -/
def castPage : Response :=
  ⟨"https://www.imdb.com/title/tt1844624/fullcredits",
   .elem "table" [] (NodeList.ofList
     [.elem "tr" [] (NodeList.ofList [castCell "/name/nm0001/"]),
      .elem "tr" [] (NodeList.ofList [castCell "/name/nm0002/"])])⟩

/-- Fixture: a cast-list page with no `td.primary_photo` cell at all. -/
def emptyCastPage : Response :=
  ⟨"https://www.imdb.com/title/tt1844624/fullcredits",
   .elem "table" [] (NodeList.ofList
     [.elem "tr" [] (NodeList.ofList
       [.elem "td" [] (NodeList.ofList
         [.elem "a" [("href", "/name/nm0009/")] NodeList.nil])])])⟩

/-- Fixture: a cast-list page with one matching cell whose anchor has no
`href` attribute. -/
def badCastPage : Response :=
  ⟨"https://www.imdb.com/title/tt1844624/fullcredits",
   .elem "table" [] (NodeList.ofList
     [.elem "tr" [] (NodeList.ofList
       [.elem "td" [("class", "primary_photo")] (NodeList.ofList
         [.elem "a" [("name", "broken")] NodeList.nil])])])⟩

/-- Fixture: a fetch table serving the Jane Doe profile page at one
URL. -/
def fixtureFetchA : String → Option Response :=
  fun u => if u == "https://www.imdb.com/name/nm0002/" then some janeDoePage else none

/-- Fixture: a second fetch table with the same pointwise behaviour as
`fixtureFetchA`. -/
def fixtureFetchB : String → Option Response :=
  fun u => if u == "https://www.imdb.com/name/nm0002/" then some janeDoePage else none

/-- When the page has at least one credit-category section,
`parse_actor_page` succeeds and emits one item per title of the FIRST
section, each carrying the extracted actor name. -/
theorem parse_actor_page_of_sections (r : Response) (s : HtmlNode)
    (rest : List HtmlNode) (h : ImdbSpider.filmoSections r = s :: rest) :
    ImdbSpider.parse_actor_page r =
      .ok ((ImdbSpider.sectionTitles s).map (fun movie =>
        ScrapyOutput.item (ImdbSpider.actor_name r) movie)) := by
  simp only [ImdbSpider.parse_actor_page, h]

/-- When every anchor in the list has an `href`, collecting the hrefs
succeeds and returns them in order. -/
theorem collectHrefs_ok (l : List HtmlNode)
    (h : ∀ a ∈ l, (HtmlNode.getAttr a "href").isSome) :
    ImdbSpider.collectHrefs l =
      .ok (l.map (fun a => (HtmlNode.getAttr a "href").getD "")) := by
  induction l with
  | nil => rfl
  | cons a rest ih =>
    obtain ⟨v, hv⟩ := Option.isSome_iff_exists.mp (h a (List.mem_cons_self a rest))
    have hrest := ih (fun x hx => h x (List.mem_cons_of_mem a hx))
    simp only [ImdbSpider.collectHrefs, hv, hrest, List.map_cons, Option.getD_some]

/-- Claim C1: for every profile page with at least one credit-category
section, `parse_actor_page` takes its titles from strictly the first
such section on the page — selection is positional, never by the
section's heading reading "Actor". -/
theorem spider_C1_first_section_policy (r : Response) (s : HtmlNode)
    (rest : List HtmlNode) (h : ImdbSpider.filmoSections r = s :: rest) :
    ImdbSpider.parse_actor_page r =
      .ok ((ImdbSpider.sectionTitles s).map (fun movie =>
        ScrapyOutput.item (ImdbSpider.actor_name r) movie)) :=
  parse_actor_page_of_sections r s rest h

/-- Witness for C1: on the fixture whose first section is the
"Director" one, the emitted records carry the Director section's title,
not the following Actor section's. -/
theorem spider_C1_witness :
    ImdbSpider.filmoSections dirFirstPage =
      [creditSection [titleRow "/title/d1/" "Directed Film"],
       creditSection [titleRow "/title/a1/" "Acted Film"]] ∧
    ImdbSpider.parse_actor_page dirFirstPage =
      .ok [ScrapyOutput.item (some "John Smith") "Directed Film"] :=
  ⟨rfl, (spider_C1_first_section_policy dirFirstPage
    (creditSection [titleRow "/title/d1/" "Directed Film"])
    [creditSection [titleRow "/title/a1/" "Acted Film"]] rfl).trans rfl⟩

/-- Claim C2: on a profile page with zero credit-category sections,
`parse_actor_page` raises a catchable per-page error (`IndexError`) and
yields zero records, and the engine contains it: the failing page
contributes nothing and the run continues with the rest of the queue. -/
theorem spider_C2_missing_filmography (r : Response)
    (h : ImdbSpider.filmoSections r = []) :
    ImdbSpider.parse_actor_page r = .error PyError.indexError ∧
    ∀ (fetch : String → Option Response) (u : String) (fuel : Nat)
      (queue : List (String × Callback)),
      fetch u = some r →
      runPipeline fetch (fuel + 1) ((u, Callback.parse_actor_page) :: queue) =
        runPipeline fetch fuel queue := by
  have herr : ImdbSpider.parse_actor_page r = .error PyError.indexError := by
    simp only [ImdbSpider.parse_actor_page, h]
  refine ⟨herr, ?_⟩
  intro fetch u fuel queue hf
  simp only [runPipeline, hf, dispatch, herr]

/-- Witness for C2: the no-sections fixture errors out, and a
pipeline run containing it continues past it unchanged. -/
theorem spider_C2_witness :
    ImdbSpider.parse_actor_page noSectionsPage = .error PyError.indexError ∧
    ∀ (fetch : String → Option Response) (u : String) (fuel : Nat)
      (queue : List (String × Callback)),
      fetch u = some noSectionsPage →
      runPipeline fetch (fuel + 1) ((u, Callback.parse_actor_page) :: queue) =
        runPipeline fetch fuel queue :=
  spider_C2_missing_filmography noSectionsPage rfl

/-- Claim C3: on a cast-list page whose matched `td.primary_photo a`
anchors all carry an `href`, `parse_full_credits` schedules exactly one
request per matched anchor, whose URL is the anchor's `href` resolved
against the page's own URL, tagged for `parse_actor_page`; in
particular the number of scheduled requests equals the number of
matched anchors. -/
theorem spider_C3_cast_requests (r : Response)
    (h : ∀ a ∈ ImdbSpider.castAnchors r, (HtmlNode.getAttr a "href").isSome) :
    ImdbSpider.parse_full_credits r =
      .ok ((ImdbSpider.castAnchors r).map (fun a =>
        ScrapyOutput.request (urljoin r.url ((HtmlNode.getAttr a "href").getD ""))
          Callback.parse_actor_page)) ∧
    ∀ outs, ImdbSpider.parse_full_credits r = .ok outs →
      outs.length = (ImdbSpider.castAnchors r).length := by
  have hmain : ImdbSpider.parse_full_credits r =
      .ok ((ImdbSpider.castAnchors r).map (fun a =>
        ScrapyOutput.request (urljoin r.url ((HtmlNode.getAttr a "href").getD ""))
          Callback.parse_actor_page)) := by
    simp only [ImdbSpider.parse_full_credits,
      collectHrefs_ok (ImdbSpider.castAnchors r) h, List.map_map]
    rfl
  refine ⟨hmain, ?_⟩
  intro outs houts
  rw [hmain] at houts
  cases houts
  simp [List.length_map]

/-- Witness for C3: the two-anchor cast fixture yields two requests,
one per profile link, resolved against the cast page URL. -/
theorem spider_C3_witness :
    ImdbSpider.parse_full_credits castPage =
      .ok [ScrapyOutput.request "https://www.imdb.com/name/nm0001/"
             Callback.parse_actor_page,
           ScrapyOutput.request "https://www.imdb.com/name/nm0002/"
             Callback.parse_actor_page] :=
  ((spider_C3_cast_requests castPage (by intro a ha; fin_cases ha <;> rfl)).1).trans rfl

/-- Claim C4: on every title page, `parse` schedules exactly one
follow-up request — the relative path "fullcredits" resolved against
the page's own URL, tagged for `parse_full_credits` — and emits no
items; and the documented example resolution holds. -/
theorem spider_C4_title_page :
    (∀ r : Response,
      ImdbSpider.parse r =
        [ScrapyOutput.request (urljoin r.url "fullcredits")
           Callback.parse_full_credits]) ∧
    urljoin "https://x/title/tt1/" "fullcredits" =
      "https://x/title/tt1/fullcredits" :=
  ⟨fun _ => rfl, rfl⟩

/-- Claim C5: a profile page whose extracted name is "Jane Doe" and
whose first credit section's bolded title links read "Film A" then
"Film B" yields exactly those two records, in section order, each
pairing the title with the name. -/
theorem spider_C5_jane_doe (r : Response) (s : HtmlNode) (rest : List HtmlNode)
    (h1 : ImdbSpider.actor_name r = some "Jane Doe")
    (h2 : ImdbSpider.filmoSections r = s :: rest)
    (h3 : ImdbSpider.sectionTitles s = ["Film A", "Film B"]) :
    ImdbSpider.parse_actor_page r =
      .ok [ScrapyOutput.item (some "Jane Doe") "Film A",
           ScrapyOutput.item (some "Jane Doe") "Film B"] := by
  rw [parse_actor_page_of_sections r s rest h2, h3, h1]
  rfl

/-- Witness for C5: the Jane Doe fixture satisfies the hypotheses and
yields exactly the two records. -/
theorem spider_C5_witness :
    ImdbSpider.parse_actor_page janeDoePage =
      .ok [ScrapyOutput.item (some "Jane Doe") "Film A",
           ScrapyOutput.item (some "Jane Doe") "Film B"] :=
  spider_C5_jane_doe janeDoePage
    (creditSection [titleRow "/title/fa/" "Film A", titleRow "/title/fb/" "Film B"])
    [] rfl rfl rfl

/-- Claim C6: on a profile page with no node matching the `.itemprop`
name marker, the name step does not fail — the name is recorded as
`none` — and when the page has credit sections the records are still
emitted, carrying that missing value. -/
theorem spider_C6_missing_name (r : Response)
    (h : cssSelect [] itempropStep r.body = []) :
    ImdbSpider.actor_name r = none ∧
    ∀ s rest, ImdbSpider.filmoSections r = s :: rest →
      ImdbSpider.parse_actor_page r =
        .ok ((ImdbSpider.sectionTitles s).map (fun movie =>
          ScrapyOutput.item none movie)) := by
  have hname : ImdbSpider.actor_name r = none := by
    simp [ImdbSpider.actor_name, ImdbSpider.itempropTexts, h]
  refine ⟨hname, ?_⟩
  intro s rest hs
  rw [parse_actor_page_of_sections r s rest hs, hname]

/-- Witness for C6: the fixture lacking a name marker yields its title
record with a missing actor value. -/
theorem spider_C6_witness :
    ImdbSpider.actor_name noNamePage = none ∧
    ImdbSpider.parse_actor_page noNamePage =
      .ok [ScrapyOutput.item none "Some Film"] :=
  ⟨(spider_C6_missing_name noNamePage rfl).1,
   ((spider_C6_missing_name noNamePage rfl).2
     (creditSection [titleRow "/title/sf/" "Some Film"]) [] rfl).trans rfl⟩

/-- Claim C7: on a cast-list page where the profile-link selector
matches nothing, `parse_full_credits` succeeds with zero follow-up
requests — no error is raised, the branch just ends. -/
theorem spider_C7_zero_matches (r : Response)
    (h : ImdbSpider.castAnchors r = []) :
    ImdbSpider.parse_full_credits r = .ok [] := by
  simp [ImdbSpider.parse_full_credits, h, ImdbSpider.collectHrefs]

/-- Witness for C7: the fixture whose only cell lacks the
`primary_photo` class schedules nothing and raises nothing. -/
theorem spider_C7_witness :
    ImdbSpider.parse_full_credits emptyCastPage = .ok [] :=
  spider_C7_zero_matches emptyCastPage rfl

/-- Claim C8: every record emitted by one `parse_actor_page` invocation
carries the same actor field — the name extracted from that page — and
one record is emitted per title occurrence of the first section
(duplicates preserved, no deduplication). -/
theorem spider_C8_actor_invariant (r : Response) (l : List ScrapyOutput)
    (h : ImdbSpider.parse_actor_page r = .ok l) :
    (∀ o ∈ l, ∃ movie, o = ScrapyOutput.item (ImdbSpider.actor_name r) movie) ∧
    ∀ s rest, ImdbSpider.filmoSections r = s :: rest →
      l.length = (ImdbSpider.sectionTitles s).length := by
  cases hs : ImdbSpider.filmoSections r with
  | nil =>
    simp only [ImdbSpider.parse_actor_page, hs] at h
    exact Except.noConfusion h
  | cons s rest =>
    rw [parse_actor_page_of_sections r s rest hs] at h
    injection h with h'
    subst h'
    constructor
    · intro o ho
      obtain ⟨m, _, rfl⟩ := List.mem_map.mp ho
      exact ⟨m, rfl⟩
    · intro s' rest' hs'
      injection hs' with hss _
      subst hss
      simp

/-- Witness for C8: the duplicate-titles fixture emits two records with
the same actor and one record per title occurrence. -/
theorem spider_C8_witness :
    (∀ o ∈ [ScrapyOutput.item (some "Rerun Person") "Rerun",
            ScrapyOutput.item (some "Rerun Person") "Rerun"],
      ∃ movie, o = ScrapyOutput.item (ImdbSpider.actor_name dupTitlesPage) movie) ∧
    ∀ s rest, ImdbSpider.filmoSections dupTitlesPage = s :: rest →
      ([ScrapyOutput.item (some "Rerun Person") "Rerun",
        ScrapyOutput.item (some "Rerun Person") "Rerun"] : List ScrapyOutput).length =
        (ImdbSpider.sectionTitles s).length :=
  spider_C8_actor_invariant dupTitlesPage
    [ScrapyOutput.item (some "Rerun Person") "Rerun",
     ScrapyOutput.item (some "Rerun Person") "Rerun"] rfl

/-- Claim C9: the pipeline is deterministic over its input documents:
runs against pointwise-identical fixture fetch tables produce identical
output record sequences, because each stage is a pure function of the
already-downloaded response. -/
theorem spider_C9_determinism (fetch1 fetch2 : String → Option Response)
    (h : ∀ u, fetch1 u = fetch2 u) (fuel : Nat)
    (queue : List (String × Callback)) :
    runPipeline fetch1 fuel queue = runPipeline fetch2 fuel queue := by
  induction fuel generalizing queue with
  | zero => rfl
  | succ n ih =>
    cases queue with
    | nil => rfl
    | cons p rest =>
      obtain ⟨u, cb⟩ := p
      simp only [runPipeline, h u]
      cases fetch2 u with
      | none => exact ih rest
      | some r =>
        dsimp only
        cases dispatch cb r with
        | error e => exact ih rest
        | ok outs =>
          dsimp only
          rw [ih]

/-- Witness for C9: two pointwise-equal fixture fetch tables give the
same run. -/
theorem spider_C9_witness :
    runPipeline fixtureFetchA 3
        [("https://www.imdb.com/name/nm0002/", Callback.parse_actor_page)] =
      runPipeline fixtureFetchB 3
        [("https://www.imdb.com/name/nm0002/", Callback.parse_actor_page)] :=
  spider_C9_determinism fixtureFetchA fixtureFetchB (fun _ => rfl) 3
    [("https://www.imdb.com/name/nm0002/", Callback.parse_actor_page)]

/-- Claim C10: a cast-list page with a matched profile-link cell whose
anchor has no `href` attribute makes `parse_full_credits` raise an
uncaught `KeyError` while building the link list, instead of degrading
silently: the fixture has one matched anchor and the call errors. -/
theorem spider_C10_missing_href :
    (ImdbSpider.castAnchors badCastPage).length = 1 ∧
    ImdbSpider.parse_full_credits badCastPage =
      .error (PyError.keyError "href") :=
  ⟨rfl, rfl⟩
